import Mathlib

/-!
Shallow embedding of the BXEngine room/exit resolution and dispatch core
(`lib/roomview.py`, `lib/world.py`, `lib/app.py`, `lib/resourcemanager.py`,
`lib/scriptmanager.py`, `lib/databasemanager.py`).

Python floats appearing in room descriptors (the `chance` probabilities and
the navigation margin fractions) are modelled as rationals (`Rat`): every
Python float is a rational number, and all the operations performed on them
here (multiplication by integers, floor, comparison with integers) are exact.
`random.randint(1, 1000)` draws are modelled by an explicit stream of integers
(`Rng`), one entry consumed per draw, threaded through every function that
draws.
-/

namespace BX

/-- A stream of pseudo-random rolls, standing in for Python's `random`
module state.  `g 0` is the next roll `random.randint(1, 1000)` would
return; drawing advances to the shifted stream. -/
def Rng : Type := Nat → Int

/-- The next roll of the stream. -/
def Rng.head (g : Rng) : Int := g 0

/-- The stream after one draw. -/
def Rng.tail (g : Rng) : Rng := fun n => g (n + 1)

/-- A `funvalue` comparison tuple as found in a room descriptor:
`["range", lo, hi]`, `["=", b]`, `["<", b]`, `[">", b]`, `["<=", b]`,
`[">=", b]` (`Roomview.__calculate_exit` dispatches on the tag string). -/
inductive FunCmp : Type where
  | range (lo hi : Int)
  | eq (b : Int)
  | lt (b : Int)
  | gt (b : Int)
  | le (b : Int)
  | ge (b : Int)
deriving DecidableEq, Repr

/-- The `presence` section of a dynamic exit descriptor: an optional
`chance` probability and an optional `funvalue` constraint. -/
structure PresenceSpec : Type where
  chance : Option Rat
  funvalue : Option FunCmp
deriving DecidableEq, Repr

/-- The `destination` section of a dynamic exit: either a literal string,
or `{default, chance?: [[prob, alt], ...], funvalue?: [[op, ..., alt], ...]}`. -/
inductive DestSpec : Type where
  | lit (s : String)
  | dyn (dflt : String) (chance : List (Rat × String)) (funvalue : List (FunCmp × String))
deriving DecidableEq, Repr

/-- One exit entry of the `exits` section: a literal destination string or a
dynamic descriptor with optional presence constraints and a destination. -/
inductive ExitSpec : Type where
  | lit (s : String)
  | dyn (presence : Option PresenceSpec) (destination : DestSpec)
deriving DecidableEq, Repr

/-- The `presence.funvalue` block of `Roomview.__calculate_exit`
(`lib/roomview.py`): `true` means the exit is kept, `false` means the
block hits one of its `return None` branches and the exit is skipped. -/
def presencePass (funvalue : Int) : FunCmp → Bool
  | .range lo hi => !(decide (lo > funvalue) || decide (hi < funvalue))
  | .eq b => !(decide (funvalue ≠ b))
  | .lt b => !(!(decide (funvalue < b)))
  | .gt b => !(!(decide (funvalue > b)))
  | .le b => !(!(decide (funvalue ≤ b)))
  | .ge b => !(!(decide (funvalue ≥ b)))

/-- One branch of the `destination.funvalue` loop of
`Roomview.__calculate_exit`: whether this rule's condition holds, so that
its alternate destination overwrites the current selection. -/
def destSelects (funvalue : Int) : FunCmp → Bool
  | .range lo hi => decide (lo ≤ funvalue) && decide (funvalue ≤ hi)
  | .eq b => decide (funvalue = b)
  | .lt b => decide (funvalue < b)
  | .gt b => decide (funvalue > b)
  | .le b => decide (funvalue ≤ b)
  | .ge b => decide (funvalue ≥ b)

/-- The `destination.chance` loop of `Roomview.__calculate_exit`: each rule
`[prob, alt]` draws a fresh roll and, when `roll < 1000 * prob`, overwrites
the current destination with `alt`; iteration never exits early. -/
def destChanceFold (rules : List (Rat × String)) (dest : String) (g : Rng) : String × Rng :=
  match rules with
  | [] => (dest, g)
  | (prob, alt) :: rest =>
    let roll := g.head
    let g' := g.tail
    if (roll : Rat) < 1000 * prob then destChanceFold rest alt g'
    else destChanceFold rest dest g'

/-- The `destination.funvalue` loop of `Roomview.__calculate_exit`: rules
are applied in list order, each satisfied rule overwriting the current
destination; iteration never exits early. -/
def destFunFold (funvalue : Int) (rules : List (FunCmp × String)) (dest : String) : String :=
  match rules with
  | [] => dest
  | (c, alt) :: rest =>
    if destSelects funvalue c then destFunFold funvalue rest alt
    else destFunFold funvalue rest dest

/-- The destination part of `Roomview.__calculate_exit`: a literal string
is returned unconditionally; a dynamic destination starts from `default`,
applies the `chance` rules, then the `funvalue` rules. -/
def resolveDestination (funvalue : Int) (destination : DestSpec) (g : Rng) :
    Option String × Rng :=
  match destination with
  | .lit s => (some s, g)
  | .dyn dflt chanceRules funRules =>
    let (dest, g') := destChanceFold chanceRules dflt g
    (some (destFunFold funvalue funRules dest), g')

/-- The optional `presence.funvalue` gate: when absent the exit is kept,
when present it is kept exactly when `presencePass` holds. -/
def presenceFunGate (funvalue : Int) (fc : Option FunCmp) : Bool :=
  match fc with
  | none => true
  | some c => presencePass funvalue c

/-- Source `Roomview.__calculate_exit` (`lib/roomview.py`): evaluates the optional
`presence` section (the `chance` gate first, drawing one roll and keeping
the exit iff `roll < 1000 * chance`, then the `funvalue` gate), then
resolves the destination.  Returns the destination string when the exit is
present, `none` when it is skipped, together with the advanced RNG. -/
def calculate_exit (funvalue : Int) (thisexit : ExitSpec) (g : Rng) :
    Option String × Rng :=
  match thisexit with
  | .lit s => (some s, g)
  | .dyn presence destination =>
    match presence with
    | none => resolveDestination funvalue destination g
    | some p =>
      match p.chance with
      | none =>
        if presenceFunGate funvalue p.funvalue then resolveDestination funvalue destination g
        else (none, g)
      | some ch =>
        let roll := g.head
        let g' := g.tail
        if (roll : Rat) < 1000 * ch then
          if presenceFunGate funvalue p.funvalue then resolveDestination funvalue destination g'
          else (none, g')
        else (none, g')

/-- The named-exits half of `Roomview.__calculate_all_exits`: each exit of
the `exits` section is run through `calculate_exit`, and it is recorded in
the resolved exits mapping only when a truthy destination comes back
(Python `if dest:` — `None` and the empty string are both falsy). -/
def calculate_all_exits (funvalue : Int) (exits : List (String × ExitSpec)) (g : Rng) :
    List (String × String) × Rng :=
  match exits with
  | [] => ([], g)
  | (name, spec) :: rest =>
    let (dest, g') := calculate_exit funvalue spec g
    let (acc, g'') := calculate_all_exits funvalue rest g'
    match dest with
    | some d => if d = "" then (acc, g'') else ((name, d) :: acc, g'')
    | none => (acc, g'')

/-- An effect entry of an action zone (`look` / `use` / `go` value): a
`result` tag (`"text"`, `"exit"` or `"script"`) and a `contents` string. -/
structure Effect : Type where
  result : String
  contents : String
deriving DecidableEq, Repr

/-- An entry of a room view's `actions` list: a rectangle `[x0, y0, x2, y3]`
and up to three effect keys, any of which may be absent. -/
structure ActionZone : Type where
  rect : Int × Int × Int × Int
  look : Option Effect
  use : Option Effect
  go : Option Effect
deriving DecidableEq, Repr

/-- Whether an action carries at least one of the `look` / `use` / `go`
keys; `App.__demarc_action_indicator` can pick an icon exactly for these,
and aborts the whole scan (`return False`) on the first action without any. -/
def hasEffectKey (a : ActionZone) : Bool :=
  a.look.isSome || a.use.isSome || a.go.isSome

/-- The strict containment test of `App.__demarc_action_indicator`:
`rect[0] < x < rect[2] and rect[1] < y < rect[3]`. -/
def insideRect (a : ActionZone) (x y : Int) : Bool :=
  decide (a.rect.1 < x) && decide (x < a.rect.2.2.1) &&
  decide (a.rect.2.1 < y) && decide (y < a.rect.2.2.2)

/-- Result of one run of the action-indicator scan. -/
inductive ActionScan : Type where
  | found (a : ActionZone)
  | aborted
  | nomatch
deriving DecidableEq, Repr

/-- Source `App.__demarc_action_indicator` (`lib/app.py`): walks the room's
`actions` list in order.  For each action it first picks the icon from the
present effect keys — an action with none of `look` / `use` / `go` makes
the method `return False` immediately, ending the scan (`aborted`).
Otherwise, the first action whose rectangle strictly contains the cursor is
selected (`found`); if the list ends, no action zone is selected
(`nomatch`, the method sets `cursor.action = None` and returns `False`). -/
def demarc_action_indicator (actions : List ActionZone) (x y : Int) : ActionScan :=
  match actions with
  | [] => .nomatch
  | a :: rest =>
    if hasEffectKey a then
      if insideRect a x y then .found a
      else demarc_action_indicator rest x y
    else .aborted

/-- The navigation fractions of the engine configuration
(`config["navigation"]`); Python floats, modelled as rationals. -/
structure NavConfig : Type where
  edge_margin_width : Rat
  edge_region_breadth : Rat
  forward_region_width : Rat
deriving DecidableEq, Repr

/-- Source `App.__demarc_nav_indicator` (`lib/app.py`): computes the edge bands
and the central forward/backward band from the window size and the
configured fractions (Python `a * f // 1` floors the product, and
`a // 2` is floor division), then tests the left, right, up, down bands in
that fixed order and the central band last.  Every membership test reads
the RAW `exits` section of the view descriptor (`self.world.room.vars["exits"]`),
so `rawExitKeys` is the list of keys of that section, not the resolved
exits mapping computed by `Roomview.__calculate_all_exits`. -/
def demarc_nav_indicator (cfg : NavConfig) (wsize : Int × Int)
    (rawExitKeys : List String) (x y : Int) : Option String :=
  let w := wsize.1
  let h := wsize.2
  let ss_min_x := ((w : Rat) * cfg.edge_margin_width).floor
  let ss_max_x := w - ss_min_x
  let ss_region_left := ((w : Rat) * cfg.edge_region_breadth).floor
  let ss_region_right := w - ss_region_left
  let ss_min_y := ((h : Rat) * cfg.edge_margin_width).floor
  let ss_max_y := h - ss_min_y
  let ss_region_up := ((h : Rat) * cfg.edge_region_breadth).floor
  let ss_region_down := h - ss_region_up
  let nf_min_x := w.fdiv 2 - ((w : Rat) * cfg.forward_region_width / 2).floor
  let nf_max_x := w.fdiv 2 + ((w : Rat) * cfg.forward_region_width / 2).floor
  let nf_min_y := h.fdiv 2 - ((h : Rat) * cfg.forward_region_width / 2).floor
  let nf_max_y := h.fdiv 2 + ((h : Rat) * cfg.forward_region_width / 2).floor
  if x < ss_region_left ∧ ss_min_y < y ∧ y < ss_max_y ∧ "left" ∈ rawExitKeys then
    some "left"
  else if x > ss_region_right ∧ ss_min_y < y ∧ y < ss_max_y ∧ "right" ∈ rawExitKeys then
    some "right"
  else if y < ss_region_up ∧ ss_min_x < x ∧ x < ss_max_x ∧ "up" ∈ rawExitKeys then
    some "up"
  else if y > ss_region_down ∧ ss_min_x < x ∧ x < ss_max_x ∧ "down" ∈ rawExitKeys then
    some "down"
  else if nf_min_x < x ∧ x < nf_max_x ∧ nf_min_y < y ∧ y < nf_max_y ∧
      ("forward" ∈ rawExitKeys ∨ "backward" ∈ rawExitKeys) then
    if "forward" ∈ rawExitKeys ∧ "backward" ∈ rawExitKeys then some "double"
    else if "forward" ∈ rawExitKeys then some "forward"
    else some "backward"
  else none

/-- An observable engine effect produced while handling a mouse event. -/
inductive Event : Type where
  | uiReset
  | uiTextBox (s : String)
  | changeRoom (s : String)
  | scriptCall (path : String) (args : List String)
  | scriptErrorLog
  | navigateDir (direction : String)
deriving DecidableEq, Repr

/-- Splitting a character list on every occurrence of a separator,
keeping empty parts, as Python `str.split(sep)` does. -/
def splitOnCharAux (c : Char) : List Char → List Char → List (List Char)
  | [], acc => [acc.reverse]
  | d :: rest, acc =>
    if d = c then acc.reverse :: splitOnCharAux c rest []
    else splitOnCharAux c rest (d :: acc)

/-- Python `s.split(c)` for a one-character separator: the list of parts
between occurrences of `c`, empty parts kept, `[s]` when `c` is absent. -/
def splitOnChar (c : Char) (s : String) : List String :=
  (splitOnCharAux c s.data []).map String.mk

/-- Source `App.__do_action` (`lib/app.py`) applied to one effect entry: `"text"`
resets the UI and opens a text box with the contents; `"exit"` changes
rooms to the contents string; `"script"` splits the contents on `":"`,
reports a malformed-contents error when there is no colon (the
`IndexError` branch), and otherwise calls the named script with the
comma-split second part as arguments; any other `result` tag does
nothing. -/
def do_action (e : Effect) : List Event :=
  if e.result = "text" then [.uiReset, .uiTextBox e.contents]
  else if e.result = "exit" then [.changeRoom e.contents]
  else if e.result = "script" then
    match splitOnChar (Char.ofNat 58) e.contents with
    | [] => [.scriptErrorLog]
    | [_] => [.scriptErrorLog]
    | p0 :: p1 :: _ => [.scriptCall p0 (splitOnChar (Char.ofNat 44) p1)]
  else []

/-- The identity recorded by `cursor.last_click` at button-down time:
`id(self.cursor.action)` for an action zone, or the nav direction string. -/
inductive LastClick : Type where
  | actionId (n : Nat)
  | navZone (s : String)
deriving DecidableEq, Repr

/-- The cursor fields read by the button-up handlers of
`App.__event_loop`.  Action-zone object identity (Python `id()`) is made
explicit as a numeric tag paired with the zone's contents.  `cursor.pos`
is always a truthy pair in the source (initialised to `[0, 0]`), so the
final `elif self.cursor.pos:` branch always fires when reached. -/
structure CursorState : Type where
  action : Option (Nat × ActionZone)
  nav : Option String
  last_click : Option LastClick
deriving DecidableEq, Repr

/-- The `MOUSEBUTTONUP and event.button == 3` branch of
`App.__event_loop` (`lib/app.py`): a completed right-click in an action
zone dispatches the `use` effect if present, else the `go` effect, and
nothing otherwise (the `look` key is never consulted); a completed
right-click on a `"backward"` or `"double"` nav region navigates backward
and resets the UI; any other click just resets the UI. -/
def on_right_mouse_up (c : CursorState) : List Event :=
  match c.action with
  | some (aid, a) =>
    if c.last_click = some (.actionId aid) then
      match a.use with
      | some e => do_action e
      | none =>
        match a.go with
        | some e => do_action e
        | none => []
    else
      match c.nav with
      | some d =>
        if (d = "backward" ∨ d = "double") ∧ c.last_click = some (.navZone d) then
          [.navigateDir "backward", .uiReset]
        else [.uiReset]
      | none => [.uiReset]
  | none =>
    match c.nav with
    | some d =>
      if (d = "backward" ∨ d = "double") ∧ c.last_click = some (.navZone d) then
        [.navigateDir "backward", .uiReset]
      else [.uiReset]
    | none => [.uiReset]

/-- The zone a render pass attributes to the cursor. -/
inductive Zone : Type where
  | action (a : ActionZone)
  | nav (direction : String)
  | nothing
deriving DecidableEq, Repr

/-- The zone-resolution step of `App.__render` (`lib/app.py`): the action
indicator is demarcated first, and only when it returns `False` (no action
zone found, or the scan aborted on a key-less action) is the navigation
indicator demarcated. -/
def renderZone (actions : List ActionZone) (cfg : NavConfig) (wsize : Int × Int)
    (rawExitKeys : List String) (x y : Int) : Zone :=
  match demarc_action_indicator actions x y with
  | .found a => .action a
  | _ =>
    match demarc_nav_indicator cfg wsize rawExitKeys x y with
    | some d => .nav d
    | none => .nothing

/-- Association-list lookup, modelling Python `key in dict` /
`dict[key]` (dicts preserve insertion order; keys are unique). -/
def lookupAssoc {β : Type} (l : List (String × β)) (k : String) : Option β :=
  match l with
  | [] => none
  | (k', v) :: rest => if k' = k then some v else lookupAssoc rest k

/-- Association-list update, modelling Python `dict[key] = value`. -/
def insertAssoc {β : Type} (l : List (String × β)) (k : String) (v : β) :
    List (String × β) :=
  match l with
  | [] => [(k, v)]
  | (k', v') :: rest =>
    if k' = k then (k, v) :: rest else (k', v') :: insertAssoc rest k v

/-- State of `ResourceManager` relevant to `load_json`
(`lib/resourcemanager.py`): the `resources` cache dict, plus a count of
disk reads actually performed (each `open` + `json.load` of a file). -/
structure RMState : Type where
  resources : List (String × String)
  reads : Nat
deriving DecidableEq, Repr

/-- Source `ResourceManager.load_json` (`lib/resourcemanager.py`), with the disk
abstracted as a map from full path to parse result (`none` = the open,
decode or schema validation fails).  The world directory is prepended to
the filename (the `rootdir=False` default path).  The cache-hit check is
`if filename in self.resources`, but on a successful fresh read the source
stores the parse with `self.resources["filename"] = rsrc` — under the
LITERAL key `"filename"`, not the path held by the variable `filename` —
and returns `self.resources["filename"]`. -/
def load_json (worldDir : String) (disk : String → Option String)
    (s : RMState) (filename : String) : Option String × RMState :=
  let filename := worldDir ++ "/" ++ filename
  match lookupAssoc s.resources filename with
  | some r => (some r, s)
  | none =>
    match disk filename with
    | none => (none, { s with reads := s.reads + 1 })
    | some rsrc =>
      (some rsrc,
       { resources := insertAssoc s.resources "filename" rsrc,
         reads := s.reads + 1 })

/-- A view object of a room descriptor, as consumed by `Roomview._load`.
The optional `title` only drives the window caption and the optional
`music` entry only drives the audio collaborator (out of the modelled
scope); neither can make `_load` fail, so they are not modelled further.
The `exits` and `actions` sections are `[]` when absent. -/
structure View : Type where
  image : String
  title : Option String
  exits : List (String × ExitSpec)
  actions : List ActionZone
deriving DecidableEq, Repr

/-- The external collaborators of a room load: `load_json` for the room
descriptor file (`none` models a falsy result: missing, unparseable or
schema-invalid; note an empty room dict is also falsy) and `load_image`
for the background (`false` = the image cannot be loaded). -/
structure Env : Type where
  loadJson : String → Option (List (String × View))
  loadImage : String → Bool

/-- The fields of a `Roomview` instance (`lib/roomview.py`) that
`_load` mutates.  `image` is `true` once the background surface loaded. -/
structure RoomviewState : Type where
  file : String
  view : String
  title : Option String
  vars : Option View
  image : Bool
  exits : List (String × String)
deriving DecidableEq, Repr

/-- A fresh `Roomview(config, app, world, resource, room_file, view_name)`. -/
def roomviewInit (file view : String) : RoomviewState :=
  { file := file, view := view, title := none, vars := none,
    image := false, exits := [] }

/-- Source `Roomview._load` (`lib/roomview.py`): load the room file (fail on a
falsy result), fail when the view name is absent, then assign
`self.vars` to the view, set the title, and only then try the background
image — failing there returns `False` but leaves `self.vars` assigned.
On full success the named exits are resolved via
`Roomview.__calculate_all_exits`.  (A view that is present but an empty
dict would crash the source at `self.vars["image"]` before returning, so
every modelled view carries its `image` field.) -/
def roomview_load (env : Env) (funvalue : Int) (rv : RoomviewState) (g : Rng) :
    RoomviewState × Bool × Rng :=
  match env.loadJson rv.file with
  | none => (rv, false, g)
  | some whole_room =>
    if whole_room.isEmpty then (rv, false, g)
    else
      match lookupAssoc whole_room rv.view with
      | none => (rv, false, g)
      | some v =>
        let rv' := { rv with vars := some v, title := v.title }
        if env.loadImage v.image then
          let (exits, g') := calculate_all_exits funvalue v.exits g
          ({ rv' with image := true, exits := exits }, true, g')
        else (rv', false, g)

/-- The `World` field mutated by navigation (`lib/world.py`):
`self.roomview`, `None` until the first successful room load. -/
structure WorldState : Type where
  roomview : Option RoomviewState
deriving DecidableEq, Repr

/-- The colon split at the top of `World.change_roomview`: a name with a
colon selects a particular view, otherwise the `"default"` view.  (A name
with two or more colons raises `ValueError` at the unpacking in the
source; such names are outside the modelled behaviours.) -/
def splitRoomName (room_name : String) : String × String :=
  match splitOnChar (Char.ofNat 58) room_name with
  | [file, view] => (file, view)
  | _ => (room_name, "default")

/-- Source `World.change_roomview` (`lib/world.py`): split the name, hold the
previous roomview in `backtrack`, build a fresh `Roomview` and call its
`_load` — whose boolean result the source DISCARDS — then check
`if not self.roomview.vars`: only when `vars` was never assigned does it
restore `backtrack` and return `False`; otherwise it keeps the new
roomview object and returns `True`. -/
def change_roomview (env : Env) (funvalue : Int) (w : WorldState)
    (room_name : String) (g : Rng) : WorldState × Bool × Rng :=
  let fv := splitRoomName room_name
  let backtrack := w.roomview
  let load := roomview_load env funvalue (roomviewInit fv.1 fv.2) g
  match load.1.vars with
  | none => ({ roomview := backtrack }, false, load.2.2)
  | some _ => ({ roomview := some load.1 }, true, load.2.2)

/-- Source `World.navigate` (`lib/world.py`): when the direction is a key of the
current roomview's resolved `exits` mapping, change to that destination;
otherwise log a warning and return `False` without touching anything.
The outer `Option` is `none` when no roomview is loaded at all (the
source would raise `AttributeError` on `self.roomview.exits`). -/
def navigate (env : Env) (funvalue : Int) (w : WorldState) (direction : String)
    (g : Rng) : Option (WorldState × Bool × Rng) :=
  match w.roomview with
  | none => none
  | some rv =>
    match lookupAssoc rv.exits direction with
    | some dest => some (change_roomview env funvalue w dest g)
    | none => some (w, false, g)

/-- How the inner expression of `ScriptManager.call`
(`getattr(self[filename], func)(*args)`, `lib/scriptmanager.py`) can
behave: return a value normally, or raise.  `attributeError` covers both
a module that could not be loaded (`self[filename]` is `None`) and a
missing function name; `systemExit` is a script calling `sys.exit()`;
`otherExc` is any other exception from the script body. -/
inductive ScriptRun : Type where
  | ok (value : String)
  | attributeError
  | systemExit
  | otherExc
deriving DecidableEq, Repr

/-- What `ScriptManager.call` itself does: return a value to the engine
(`none` standing for Python `None`), or terminate the engine with an exit
code (`sys.exit`, i.e. a `SystemExit` propagating out of the call). -/
inductive CallResult : Type where
  | ret (value : Option String)
  | engineExit (code : Nat)
deriving DecidableEq, Repr

/-- Source `ScriptManager.call` (`lib/scriptmanager.py`): a normal return is
passed through; `AttributeError` is caught, logged, and converted to
`None`; a `SystemExit` from the script is caught, logged critically, and
re-raised as `sys.exit(11)` — the engine terminates rather than getting
`None` back; every other exception is caught by the bare `except` and
converted to `None`. -/
def call (run : ScriptRun) : CallResult :=
  match run with
  | .ok v => .ret (some v)
  | .attributeError => .ret none
  | .systemExit => .engineExit 11
  | .otherExc => .ret none

/-- A Python object handed to `DatabaseManager.put`: either a
JSON-serializable value (carried as its serialization) or not
(`json.dumps` raises `TypeError` on it). -/
inductive PyObj : Type where
  | json (v : String)
  | nonser
deriving DecidableEq, Repr

/-- Whether `json.dumps` succeeds on the object. -/
def serializable : PyObj → Bool
  | .json _ => true
  | .nonser => false

/-- The `DatabaseManager` fields touched by `put`
(`lib/databasemanager.py`): the in-memory mapping and the dirty flag. -/
structure DbState : Type where
  database : List (String × PyObj)
  changed : Bool
deriving DecidableEq, Repr

/-- Source `DatabaseManager.put` (`lib/databasemanager.py`): first `json.dumps`
the object — on `TypeError` log and return `False` before anything is
written; otherwise store the object under the key, set the dirty flag,
and return `True`. -/
def put (s : DbState) (key : String) (obj : PyObj) : DbState × Bool :=
  if serializable obj then
    ({ database := insertAssoc s.database key obj, changed := true }, true)
  else (s, false)

/-! ## Helper lemmas -/

/-- The first conjunct of a destination resolution is always a `some`:
once the presence gates pass, a destination string is always produced. -/
theorem resolveDestination_fst_isSome (funvalue : Int) (d : DestSpec) (g : Rng) :
    (resolveDestination funvalue d g).1.isSome := by
  cases d with
  | lit s => rfl
  | dyn dflt chanceRules funRules =>
    simp only [resolveDestination]
    cases destChanceFold chanceRules dflt g
    simp

/-- Finding in an appended list tries the left part first. -/
theorem find?_append_cases {α : Type} (p : α → Bool) (l₁ l₂ : List α) :
    (l₁ ++ l₂).find? p =
      (match l₁.find? p with
       | some a => some a
       | none => l₂.find? p) := by
  induction l₁ with
  | nil => simp
  | cons a l ih =>
    cases hp : p a <;> simp [List.find?, hp, ih]

/-- The claim-side reading of the `destination.funvalue` rule list: the
alternate of the last rule in list order whose condition is satisfied
(the first satisfied rule of the reversed list), or the starting
destination when no rule is satisfied. -/
def lastSatisfiedAlt (funvalue : Int) (rules : List (FunCmp × String)) (dflt : String) :
    String :=
  match rules.reverse.find? (fun r => destSelects funvalue r.1) with
  | some r => r.2
  | none => dflt

/-- The in-order overwrite fold of the source equals the last-satisfied
reading of the claim. -/
theorem destFunFold_eq_lastSatisfiedAlt (funvalue : Int)
    (rules : List (FunCmp × String)) :
    ∀ dest, destFunFold funvalue rules dest = lastSatisfiedAlt funvalue rules dest := by
  induction rules with
  | nil => intro dest; rfl
  | cons r rest ih =>
    intro dest
    obtain ⟨c, alt⟩ := r
    have hrev : ((c, alt) :: rest).reverse = rest.reverse ++ [(c, alt)] := by
      simp
    cases hc : destSelects funvalue c with
    | true =>
      have : destFunFold funvalue ((c, alt) :: rest) dest =
          destFunFold funvalue rest alt := by
        simp [destFunFold, hc]
      rw [this, ih alt]
      simp only [lastSatisfiedAlt, hrev, find?_append_cases]
      cases hfind : rest.reverse.find? (fun r => destSelects funvalue r.1) <;>
        simp [List.find?, hc, hfind]
    | false =>
      have : destFunFold funvalue ((c, alt) :: rest) dest =
          destFunFold funvalue rest dest := by
        simp [destFunFold, hc]
      rw [this, ih dest]
      simp only [lastSatisfiedAlt, hrev, find?_append_cases]
      cases hfind : rest.reverse.find? (fun r => destSelects funvalue r.1) <;>
        simp [List.find?, hc, hfind]

/-- Updating a key makes lookup of that key return the new value. -/
theorem lookupAssoc_insertAssoc_self {β : Type} (l : List (String × β))
    (k : String) (v : β) : lookupAssoc (insertAssoc l k v) k = some v := by
  induction l with
  | nil => simp [insertAssoc, lookupAssoc]
  | cons p rest ih =>
    obtain ⟨k', v'⟩ := p
    by_cases hk : k' = k
    · simp [insertAssoc, lookupAssoc, hk]
    · simp [insertAssoc, lookupAssoc, hk, ih]

/-- Updating a key leaves lookup of every other key unchanged. -/
theorem lookupAssoc_insertAssoc_ne {β : Type} (l : List (String × β))
    (k : String) (v : β) (k' : String) (h : k' ≠ k) :
    lookupAssoc (insertAssoc l k v) k' = lookupAssoc l k' := by
  induction l with
  | nil => simp [insertAssoc, lookupAssoc, Ne.symm h]
  | cons p rest ih =>
    obtain ⟨k0, v0⟩ := p
    by_cases hk : k0 = k
    · subst hk
      simp [insertAssoc, lookupAssoc, Ne.symm h]
    · simp [insertAssoc, lookupAssoc, hk, ih]

/-! ## Claim theorems -/

/-- C4: for an exit descriptor whose `presence` section carries a chance
probability `c`, the roll drawn for the gate is the next RNG value, and
the exit is present iff `roll < 1000 * c` (strictly); whenever the gate
fails the exit is absent regardless of any `funvalue` constraint, and in
particular with `c = 1.0` a roll of exactly `1000` makes the exit absent. -/
theorem calculate_exit_chance_boundary (c : Rat) (fc : Option FunCmp) (d : DestSpec)
    (funvalue : Int) (g : Rng) :
    (¬ ((g 0 : Rat) < 1000 * c) →
      (calculate_exit funvalue (.dyn (some ⟨some c, fc⟩) d) g).1 = none)
    ∧ ((calculate_exit funvalue (.dyn (some ⟨some c, none⟩) d) g).1 ≠ none ↔
        (g 0 : Rat) < 1000 * c)
    ∧ (g 0 = 1000 → c = 1 →
        (calculate_exit funvalue (.dyn (some ⟨some c, none⟩) d) g).1 = none) := by
  have hfail : ∀ (fc' : Option FunCmp), ¬ ((g 0 : Rat) < 1000 * c) →
      (calculate_exit funvalue (.dyn (some ⟨some c, fc'⟩) d) g).1 = none := by
    intro fc' h
    simp only [calculate_exit, Rng.head, Rng.tail]
    rw [if_neg h]
  refine ⟨hfail fc, ⟨?_, ?_⟩, ?_⟩
  · intro h
    by_contra hc
    exact h (hfail none hc)
  · intro h
    simp only [calculate_exit, Rng.head]
    rw [if_pos h]
    have hs := resolveDestination_fst_isSome funvalue d (Rng.tail g)
    simp only [presenceFunGate, if_true]
    intro hnone
    rw [hnone] at hs
    exact Bool.noConfusion hs
  · intro h1000 hc1
    apply hfail none
    rw [h1000, hc1]
    norm_num

/-- C5: for a dynamic destination, the resolved destination is the
alternate of the last `funvalue` rule in list order whose condition is
satisfied; when no rule is satisfied it is the default destination as
possibly already modified by the `chance` rules. -/
theorem resolveDestination_last_satisfied_rule_wins (funvalue : Int) (dflt : String)
    (chanceRules : List (Rat × String)) (funRules : List (FunCmp × String)) (g : Rng) :
    (resolveDestination funvalue (.dyn dflt chanceRules funRules) g).1 =
      some (lastSatisfiedAlt funvalue funRules (destChanceFold chanceRules dflt g).1) := by
  simp only [resolveDestination]
  cases hd : destChanceFold chanceRules dflt g
  simp [destFunFold_eq_lastSatisfiedAlt]

/-- A constant RNG stream whose every roll is 1000 (the top of the
`random.randint(1, 1000)` range). -/
def rollAlways1000 : Rng := fun _ => 1000

/-- Witness for C4 at a concrete input: with `chance = 1.0`, a literal
destination `"roomX"` and a roll of exactly 1000, the exit is absent. -/
theorem calculate_exit_chance_boundary_witness :
    (calculate_exit 0 (.dyn (some ⟨some 1, none⟩) (.lit "roomX")) rollAlways1000).1 =
      none :=
  (calculate_exit_chance_boundary 1 none (.lit "roomX") 0 rollAlways1000).2.2 rfl rfl

/-- C3 amendment: when every action in the room's list carries at least
one of the `look` / `use` / `go` keys, the scan selects the first action
in list order whose rectangle strictly contains the cursor, and the render
pass prefers it over any navigation band. -/
theorem renderZone_first_action_zone_priority (actions : List ActionZone)
    (cfg : NavConfig) (wsize : Int × Int) (raw : List String) (x y : Int)
    (a : ActionZone)
    (hkeys : ∀ b ∈ actions, hasEffectKey b = true)
    (hfirst : actions.find? (fun b => insideRect b x y) = some a) :
    renderZone actions cfg wsize raw x y = Zone.action a := by
  have hscan : demarc_action_indicator actions x y = .found a := by
    induction actions with
    | nil => exact absurd hfirst (by simp)
    | cons b rest ih =>
      have hb : hasEffectKey b = true := hkeys b (by simp)
      cases hin : insideRect b x y with
      | true =>
        simp only [List.find?, hin] at hfirst
        obtain rfl : b = a := by simpa using hfirst
        simp [demarc_action_indicator, hb, hin]
      | false =>
        simp only [List.find?, hin] at hfirst
        have := ih (fun b' hb' => hkeys b' (List.mem_cons_of_mem _ hb')) hfirst
        simp [demarc_action_indicator, hb, hin, this]
  simp [renderZone, hscan]

/-- Witness for C3's amended theorem: a room with a single look-only
action whose rectangle contains the cursor resolves to that action. -/
theorem renderZone_first_action_zone_priority_witness :
    renderZone
      [{ rect := (0, 0, 10, 10),
         look := some { result := "text", contents := "hello" },
         use := none, go := none }]
      { edge_margin_width := 1/10, edge_region_breadth := 1/10,
        forward_region_width := 1/4 }
      (800, 600) ["left"] 5 5 =
    Zone.action
      { rect := (0, 0, 10, 10),
        look := some { result := "text", contents := "hello" },
        use := none, go := none } :=
  renderZone_first_action_zone_priority _ _ _ _ 5 5 _ (by decide) (by decide)

/-- C3 counterexample: with an action carrying none of the three effect
keys ahead of it in the list, an action zone strictly containing the
cursor is NOT selected — the scan aborts at the key-less action and the
render pass falls through to the navigation indicator (here: nothing). -/
theorem renderZone_keyless_action_aborts_scan :
    (insideRect
      { rect := (0, 0, 10, 10),
        look := some { result := "text", contents := "hello" },
        use := none, go := none } 5 5 = true)
    ∧ demarc_action_indicator
        [{ rect := (100, 100, 200, 200), look := none, use := none, go := none },
         { rect := (0, 0, 10, 10),
           look := some { result := "text", contents := "hello" },
           use := none, go := none }] 5 5 = ActionScan.aborted
    ∧ renderZone
        [{ rect := (100, 100, 200, 200), look := none, use := none, go := none },
         { rect := (0, 0, 10, 10),
           look := some { result := "text", contents := "hello" },
           use := none, go := none }]
        { edge_margin_width := 1/10, edge_region_breadth := 1/10,
          forward_region_width := 1/4 }
        (800, 600) [] 5 5 = Zone.nothing := by
  refine ⟨by decide, by decide, ?_⟩
  have hscan : demarc_action_indicator
      [{ rect := (100, 100, 200, 200), look := none, use := none, go := none },
       { rect := (0, 0, 10, 10),
         look := some { result := "text", contents := "hello" },
         use := none, go := none }] 5 5 = ActionScan.aborted := by decide
  simp [renderZone, hscan, demarc_nav_indicator]

/-- C6 amendment: a navigation band yields a direction only when that
direction is a key of the RAW `exits` section of the view descriptor
(what `vars["exits"]` holds), the only exception being the combined
`"double"` indicator, which requires both `"forward"` and `"backward"`
raw keys; presence evaluation (the resolved exits mapping) plays no role. -/
theorem nav_indicator_requires_raw_exit_key (cfg : NavConfig) (wsize : Int × Int)
    (raw : List String) (x y : Int) (d : String)
    (hd : demarc_nav_indicator cfg wsize raw x y = some d) :
    (d = "double" ∧ "forward" ∈ raw ∧ "backward" ∈ raw) ∨ d ∈ raw := by
  simp only [demarc_nav_indicator] at hd
  split_ifs at hd with h1 h2 h3 h4 h5 h6 h7
  · right
    obtain rfl : "left" = d := by simpa using hd
    exact h1.2.2.2
  · right
    obtain rfl : "right" = d := by simpa using hd
    exact h2.2.2.2
  · right
    obtain rfl : "up" = d := by simpa using hd
    exact h3.2.2.2
  · right
    obtain rfl : "down" = d := by simpa using hd
    exact h4.2.2.2
  · left
    obtain rfl : "double" = d := by simpa using hd
    exact ⟨rfl, h6⟩
  · right
    obtain rfl : "forward" = d := by simpa using hd
    exact h7
  · right
    obtain rfl : "backward" = d := by simpa using hd
    rcases h5.2.2.2.2 with hf | hb
    · exact absurd hf h7
    · exact hb

/-- Witness for C6's amended theorem: cursor at (5, 300) in an 800×600
window with a 1/10 edge breadth yields the left band, and indeed
`"left"` is a raw exit key. -/
theorem nav_indicator_requires_raw_exit_key_witness :
    ("left" = "double" ∧ "forward" ∈ ["left"] ∧ "backward" ∈ ["left"]) ∨
      "left" ∈ ["left"] :=
  nav_indicator_requires_raw_exit_key
    { edge_margin_width := 1/10, edge_region_breadth := 1/10,
      forward_region_width := 1/4 }
    (800, 600) ["left"] 5 300 "left"
    (by simp only [demarc_nav_indicator]; norm_num [Rat.floor])

/-- C6 counterexample: a room whose only raw exit is a `"left"` exit
gated on `chance = 0` resolves to an EMPTY resolved-exits mapping, yet
the navigation indicator still yields the `"left"` band for a cursor in
the left edge region, because the source tests `vars["exits"]` (the raw
section) rather than the resolved exits. -/
theorem nav_indicator_ignores_resolved_exits :
    (calculate_all_exits 0
        [("left", .dyn (some ⟨some 0, none⟩) (.lit "room2.json"))]
        (fun _ => 1)).1 = []
    ∧ demarc_nav_indicator
        { edge_margin_width := 1/10, edge_region_breadth := 1/10,
          forward_region_width := 1/4 }
        (800, 600)
        ([("left", ExitSpec.dyn (some ⟨some 0, none⟩) (.lit "room2.json"))].map
          Prod.fst)
        5 300 = some "left" := by
  constructor
  · have h0 : ¬ ((1 : Rat) < 0) := by norm_num
    simp [calculate_all_exits, calculate_exit, Rng.head, mul_zero, h0]
  · simp only [List.map, demarc_nav_indicator]
    norm_num [Rat.floor]

/-- C7: for a completed right-click inside an action zone (the cursor is
in the zone and `last_click` holds that zone's identity), the dispatch
is entirely independent of the zone's `look` key; it runs the `use`
effect when present, else the `go` effect, and produces no event at all —
in particular no text box — when neither is present. -/
theorem right_click_never_look (c : CursorState) (aid : Nat) (a : ActionZone)
    (hc : c.action = some (aid, a))
    (hl : c.last_click = some (.actionId aid)) :
    (∀ x, on_right_mouse_up { c with action := some (aid, { a with look := x }) } =
      on_right_mouse_up c)
    ∧ (∀ e, a.use = some e → on_right_mouse_up c = do_action e)
    ∧ (∀ e, a.use = none → a.go = some e → on_right_mouse_up c = do_action e)
    ∧ (a.use = none → a.go = none → on_right_mouse_up c = []) := by
  refine ⟨?_, ?_, ?_, ?_⟩
  · intro x
    simp [on_right_mouse_up, hc, hl]
  · intro e he
    simp [on_right_mouse_up, hc, hl, he]
  · intro e hu hg
    simp [on_right_mouse_up, hc, hl, hu, hg]
  · intro hu hg
    simp [on_right_mouse_up, hc, hl, hu, hg]

/-- Witness for C7: a completed right-click on a zone whose only effect
key is `look` produces no event (no text box opens). -/
theorem right_click_never_look_witness :
    on_right_mouse_up
      { action := some (7,
          { rect := (0, 0, 10, 10),
            look := some { result := "text", contents := "hello" },
            use := none, go := none }),
        nav := none,
        last_click := some (.actionId 7) } = [] :=
  (right_click_never_look _ 7 _ rfl rfl).2.2.2 rfl rfl

/-- C8: navigating through a direction that is not a key of the current
roomview's resolved exits mapping returns `False` and leaves the world
state — the roomview object and hence its exits — exactly as before. -/
theorem navigate_invalid_direction_no_change (env : Env) (funvalue : Int)
    (w : WorldState) (rv : RoomviewState) (direction : String) (g : Rng)
    (hw : w.roomview = some rv)
    (hdir : lookupAssoc rv.exits direction = none) :
    navigate env funvalue w direction g = some (w, false, g) := by
  simp [navigate, hw, hdir]

/-- An environment where nothing loads, for witnesses. -/
def envEmpty : Env :=
  { loadJson := fun _ => none, loadImage := fun _ => false }

/-- Witness for C8 at a concrete input: a roomview with no resolved exits
rejects `"left"` and the world state is untouched. -/
theorem navigate_invalid_direction_no_change_witness :
    navigate envEmpty 0 { roomview := some (roomviewInit "r.json" "default") }
      "left" rollAlways1000 =
    some ({ roomview := some (roomviewInit "r.json" "default") }, false,
      rollAlways1000) :=
  navigate_invalid_direction_no_change envEmpty 0
    { roomview := some (roomviewInit "r.json" "default") }
    (roomviewInit "r.json" "default") "left" rollAlways1000 rfl rfl

/-- C9 counterexample: a script that raises `SystemExit` (calls
`sys.exit()`) does not get converted to a `None` return — the call
terminates the engine with exit code 11, so not every exception raised
while executing the function is absorbed into a `None` result. -/
theorem call_systemExit_terminates_engine :
    call .systemExit = .engineExit 11 ∧ call .systemExit ≠ .ret none := by
  exact ⟨rfl, by simp [call]⟩

/-- C9 amendment: every behaviour of the script invocation other than
raising `SystemExit` is absorbed by `ScriptManager.call` — a normal value
is returned and every other exception is caught, logged, and converted to
a `None` return; only `sys.exit()` escapes, deliberately, as an engine
shutdown. -/
theorem call_catches_all_but_systemExit (run : ScriptRun)
    (h : run ≠ .systemExit) : ∃ v, call run = .ret v := by
  cases run with
  | ok v => exact ⟨some v, rfl⟩
  | attributeError => exact ⟨none, rfl⟩
  | systemExit => exact absurd rfl h
  | otherExc => exact ⟨none, rfl⟩

/-- Witness for C9's amended theorem: an arbitrary script exception is
converted to a return. -/
theorem call_catches_all_but_systemExit_witness :
    ∃ v, call .otherExc = .ret v :=
  call_catches_all_but_systemExit .otherExc (by simp)

/-- C10: `DatabaseManager.put` with a non-serializable object returns
`False` and leaves the in-memory mapping and dirty flag completely
untouched; with a serializable object it returns `True`, marks the
database changed, stores the object under the key, and leaves every
other key's binding as it was. -/
theorem put_atomicity (s : DbState) (key : String) (obj : PyObj) :
    (serializable obj = false → put s key obj = (s, false))
    ∧ (serializable obj = true →
        (put s key obj).2 = true
        ∧ (put s key obj).1.changed = true
        ∧ lookupAssoc (put s key obj).1.database key = some obj
        ∧ ∀ k, k ≠ key →
            lookupAssoc (put s key obj).1.database k = lookupAssoc s.database k) := by
  constructor
  · intro h
    simp [put, h]
  · intro h
    refine ⟨by simp [put, h], by simp [put, h], ?_, ?_⟩
    · simp only [put, h, if_true]
      exact lookupAssoc_insertAssoc_self s.database key obj
    · intro k hk
      simp only [put, h, if_true]
      exact lookupAssoc_insertAssoc_ne s.database key obj k hk

/-- Witness for C10: a concrete non-serializable put fails and changes
nothing, and a concrete serializable put stores and reports success. -/
theorem put_atomicity_witness :
    put { database := [], changed := false } "k" PyObj.nonser =
      ({ database := [], changed := false }, false) :=
  (put_atomicity { database := [], changed := false } "k" PyObj.nonser).1 rfl

/-- A view whose background image will fail to load. -/
def viewC1 : View :=
  { image := "bg.png", title := none, exits := [], actions := [] }

/-- An environment where the room file `roomA` parses and holds a
`default` view, but every background image load fails. -/
def envImageFail : Env :=
  { loadJson := fun f => if f = "roomA" then some [("default", viewC1)] else none,
    loadImage := fun _ => false }

/-- C1 is a code bug, exhibited at its failing input: when the room file
parses and the view exists but the background image fails to load,
`Roomview._load` returns `False` with `self.vars` already assigned;
`World.change_roomview` discards that return value and its
`if not self.roomview.vars` check passes, so it KEEPS the new, broken
roomview (image never loaded) and returns `True` — the previous roomview
is not restored on this failure path. -/
theorem change_roomview_image_failure_not_rolled_back :
    (change_roomview envImageFail 0
        { roomview := some (roomviewInit "prev.json" "default") }
        "roomA" rollAlways1000).2.1 = true
    ∧ (change_roomview envImageFail 0
        { roomview := some (roomviewInit "prev.json" "default") }
        "roomA" rollAlways1000).1.roomview =
      some { file := "roomA", view := "default", title := none,
             vars := some viewC1, image := false, exits := [] }
    ∧ (change_roomview envImageFail 0
        { roomview := some (roomviewInit "prev.json" "default") }
        "roomA" rollAlways1000).1.roomview ≠
      some (roomviewInit "prev.json" "default") := by
  refine ⟨rfl, rfl, by decide⟩

/-- A disk holding two distinct parseable JSON files in world dir `w`. -/
def diskC2 : String → Option String := fun f =>
  if f = "w/room1.json" then some "parse1"
  else if f = "w/room2.json" then some "parse2"
  else none

/-- C2 is a code bug, exhibited at its failing input: the source stores a
freshly parsed file under the literal dictionary key `"filename"`
(`self.resources["filename"] = rsrc`) instead of the path, so a second
`load_json` of the same path misses the cache and performs a second disk
read (`reads = 2`), and loading a different path afterwards overwrites
the lone `"filename"` entry, evicting the first parse. -/
theorem load_json_cache_never_hit :
    (load_json "w" diskC2 { resources := [], reads := 0 } "room1.json").1 =
      some "parse1"
    ∧ (load_json "w" diskC2 { resources := [], reads := 0 } "room1.json").2.resources =
      [("filename", "parse1")]
    ∧ (load_json "w" diskC2
        (load_json "w" diskC2 { resources := [], reads := 0 } "room1.json").2
        "room1.json").1 = some "parse1"
    ∧ (load_json "w" diskC2
        (load_json "w" diskC2 { resources := [], reads := 0 } "room1.json").2
        "room1.json").2.reads = 2
    ∧ (load_json "w" diskC2
        (load_json "w" diskC2
          (load_json "w" diskC2 { resources := [], reads := 0 } "room1.json").2
          "room1.json").2
        "room2.json").2.resources = [("filename", "parse2")] := by
  refine ⟨rfl, rfl, rfl, rfl, rfl⟩

end BX
